import Mathlib

/-!
Shallow embedding of the pg_quota extension (fs_model.c and enforcement.c).

The shared-memory hash table `relation_totals_map` is modelled as a list of
`RelationSizeEntry` records; the pointer being NULL (store never attached) is
modelled by `Option`, with `none` standing for the NULL map.  The dynahash
operations used by the source are modelled at their interface:
`hash_search(HASH_FIND)` is a first-match lookup, `hash_search(HASH_ENTER)`
either returns the existing entry for the key, allocates a new one while the
table is below its fixed maximum, or raises "out of shared memory" leaving the
table untouched, and `hash_seq_search` visits every entry.  LWLock calls
bracket single map operations and are not represented.  `ereport(ERROR, ...)`
is modelled as an error result produced before any mutation that textually
follows it in the C body.
-/

namespace PgQuota

/-- Object identifier; `InvalidOid` is 0 as in PostgreSQL. -/
abbrev Oid := Nat

def InvalidOid : Oid := 0

/-- Fixed capacity of the shared hash table (fs_model.c line 32). -/
def MAX_DB_ROLE_ENTRIES : Nat := 1024

/-- Hash key of the shared map: relation OID and database OID (fs_model.c lines 48-53). -/
structure RelationSizeEntryKey where
  relid : Oid
  dbid : Oid
deriving DecidableEq, Repr

/-- One entry of the shared map: key, current total space usage, quota
(fs_model.c lines 55-61). -/
structure RelationSizeEntry where
  key : RelationSizeEntryKey
  totalsize : Int
  quota : Int
deriving DecidableEq, Repr

/-- Contents of the shared hash table `relation_totals_map`. -/
abbrev RelTotalsMap := List RelationSizeEntry

/-- The global map pointer: `none` models `relation_totals_map == NULL`
(store never initialized in this process). -/
abbrev FsState := Option RelTotalsMap

/-- Model of `hash_search(relation_totals_map, &key, HASH_FIND, NULL)`:
first entry whose key matches. -/
def lookup_entry (dbid relid : Oid) (m : RelTotalsMap) : Option RelationSizeEntry :=
  m.find? fun e => e.key = ⟨relid, dbid⟩

/-- Model of `init_fs_model` (fs_model.c lines 82-107): walk the shared map and
remove every entry whose `dbid` equals `MyDatabaseId`.  This is the spec's
`Reset(scope)` with scope = database OID. -/
def init_fs_model (MyDatabaseId : Oid) (m : RelTotalsMap) : RelTotalsMap :=
  m.filter fun relentry => relentry.key.dbid ≠ MyDatabaseId

/-- Model of `UpdateQuotaRefreshRelationSize` (fs_model.c lines 185-203).
`hash_search(HASH_ENTER)` finds or creates the entry for (relid, MyDatabaseId);
when the entry exists its two fields are overwritten in place; when it is new
and the table is below `MAX_DB_ROLE_ENTRIES` a fresh entry is allocated and its
fields set; when the table is full dynahash raises "out of shared memory"
before anything is written, so the map is returned unchanged together with the
error.  The first component is the raised error, if any; the second is the map
after the call. -/
def UpdateQuotaRefreshRelationSize (MyDatabaseId : Oid) (relid : Oid)
    (newquota newtotalsize : Int) (m : RelTotalsMap) :
    Option String × RelTotalsMap :=
  let key : RelationSizeEntryKey := ⟨relid, MyDatabaseId⟩
  if (lookup_entry MyDatabaseId relid m).isSome then
    (none, m.map fun e =>
      if e.key = key then { e with quota := newquota, totalsize := newtotalsize } else e)
  else if m.length < MAX_DB_ROLE_ENTRIES then
    (none, m ++ [{ key := key, totalsize := newtotalsize, quota := newquota }])
  else
    (some "out of shared memory", m)

/-- Model of `CheckQuota` (fs_model.c lines 214-246), returning the result
together with the state of the shared map after the call.  If the map pointer
is NULL the function returns true at once; otherwise it looks the key up and
denies exactly when an entry exists with `quota >= 0` and
`totalsize > quota`. -/
def CheckQuotaS (MyDatabaseId : Oid) (relid : Oid) (st : FsState) : Bool × FsState :=
  match st with
  | none => (true, none)
  | some m =>
    match lookup_entry MyDatabaseId relid m with
    | some relentry =>
      if relentry.quota ≥ 0 ∧ relentry.totalsize > relentry.quota then
        (false, some m)
      else
        (true, some m)
    | none => (true, some m)

/-- Result of `CheckQuota`: true when the quota for `relid` has not been
exceeded. -/
def CheckQuota (MyDatabaseId : Oid) (relid : Oid) (st : FsState) : Bool :=
  (CheckQuotaS MyDatabaseId relid st).1

/-- One row produced by the `quota.status` set-returning function: relation
OID, space used, and the quota column, `none` modelling SQL NULL. -/
structure QuotaStatusRow where
  relid : Oid
  space_used : Int
  quota : Option Int
deriving DecidableEq, Repr

/-- Model of `get_quota_status` (fs_model.c lines 251-328), returning the rows
put into the tuplestore together with the state of the shared map after the
call.  When the map pointer is NULL no rows are produced; otherwise every
entry of the current database yields a row, with the quota column NULL exactly
when the stored quota equals -1. -/
def get_quota_statusS (MyDatabaseId : Oid) (st : FsState) :
    List QuotaStatusRow × FsState :=
  match st with
  | none => ([], none)
  | some m =>
    (m.filterMap fun relentry =>
      if relentry.key.dbid ≠ MyDatabaseId then
        none
      else
        some { relid := relentry.key.relid
               space_used := relentry.totalsize
               quota := if relentry.quota ≠ -1 then some relentry.quota else none },
     some m)

/-- Rows returned by the `quota.status` view. -/
def get_quota_status (MyDatabaseId : Oid) (st : FsState) : List QuotaStatusRow :=
  (get_quota_statusS MyDatabaseId st).1

/-! Enforcement, Strategy A: the `ExecCheckRTPerms` hook (enforcement.c,
first variant). -/

/-- Range-table entry kinds (nodes/parsenodes.h); only `RTE_RELATION` entries
are checked by the hook. -/
inductive RTEKind where
  | RTE_RELATION
  | RTE_SUBQUERY
  | RTE_JOIN
  | RTE_FUNCTION
  | RTE_TABLEFUNC
  | RTE_VALUES
  | RTE_CTE
  | RTE_NAMEDTUPLESTORE
deriving DecidableEq, Repr

/-- The `ACL_INSERT` permission bit (1 << 0 in PostgreSQL). -/
def ACL_INSERT : Nat := 1

/-- The fields of a `RangeTblEntry` that the hook reads. -/
structure RangeTblEntry where
  rtekind : RTEKind
  requiredPerms : Nat
  relid : Oid
deriving DecidableEq, Repr

/-- Outcome of the `ExecCheckRTPerms` hook: proceed (returned true), returned
false to the caller, or raised `ERRCODE_DISK_FULL`. -/
inductive RTPermsOutcome where
  | allowed
  | denied
  | diskFullError
deriving DecidableEq, Repr

/-- Model of `quota_check_ExecCheckRTPerms` (enforcement.c lines 45-82): walk
the range table; skip entries that are not relations and entries whose
required permissions lack `ACL_INSERT`; on the first checked relation whose
quota is exceeded, raise `ERRCODE_DISK_FULL` when `ereport_on_violation` is
set and otherwise return false; return true when no checked relation is over
quota. -/
def quota_check_ExecCheckRTPerms (MyDatabaseId : Oid) (st : FsState)
    (ereport_on_violation : Bool) : List RangeTblEntry → RTPermsOutcome
  | [] => .allowed
  | rte :: rest =>
    if rte.rtekind ≠ RTEKind.RTE_RELATION then
      quota_check_ExecCheckRTPerms MyDatabaseId st ereport_on_violation rest
    else if rte.requiredPerms &&& ACL_INSERT = 0 then
      quota_check_ExecCheckRTPerms MyDatabaseId st ereport_on_violation rest
    else if CheckQuota MyDatabaseId rte.relid st = false then
      if ereport_on_violation then .diskFullError else .denied
    else
      quota_check_ExecCheckRTPerms MyDatabaseId st ereport_on_violation rest

/-! Enforcement, Strategy B: the `SmgrExtend` hook (enforcement.c, second
variant). -/

/-- Model of `get_rel_owner` (enforcement.c, second variant, lines 123-143).
The syscache lookup of `pg_class` is an external collaborator, modelled as a
function from relation OID to the optional owner recorded there; when the
tuple is missing the function returns `InvalidOid`. -/
def get_rel_owner (syscache_relowner : Oid → Option Oid) (relid : Oid) : Oid :=
  match syscache_relowner relid with
  | some relowner => relowner
  | none => InvalidOid

/-- Outcome of the `SmgrExtend` hook: return normally (the physical extension
proceeds) or raise `ERRCODE_DISK_FULL`. -/
inductive SmgrExtendOutcome where
  | proceed
  | diskFullError
deriving DecidableEq, Repr

/-- Model of `quota_check_SmgrExtend` (enforcement.c, second variant, lines
149-171): resolve the extended file's relNode to its owner; when the owner is
`InvalidOid` return at once (the extension proceeds); otherwise raise
`ERRCODE_DISK_FULL` exactly when `CheckQuota` fails for the owner. -/
def quota_check_SmgrExtend (syscache_relowner : Oid → Option Oid)
    (MyDatabaseId : Oid) (st : FsState) (relNode : Oid) : SmgrExtendOutcome :=
  let owner := get_rel_owner syscache_relowner relNode
  if owner = InvalidOid then
    .proceed
  else if CheckQuota MyDatabaseId owner st = false then
    .diskFullError
  else
    .proceed

/-! Theorems settling the claims. -/

/-- Auxiliary: looking a key up in a singleton map holding exactly that key. -/
theorem lookup_entry_singleton (dbid relid : Oid) (t q : Int) :
    lookup_entry dbid relid [⟨⟨relid, dbid⟩, t, q⟩] = some ⟨⟨relid, dbid⟩, t, q⟩ := by
  simp [lookup_entry]

/-- C1: for every stored entry, a sentinel (-1) limit makes `CheckQuota` allow
regardless of `totalsize`; an entry with a real (non-negative) limit is allowed
iff `totalsize ≤ quota` and denied iff `totalsize > quota`, so
`totalsize = quota` is allowed. -/
theorem C1_check_predicate (dbid relid : Oid) (m : RelTotalsMap)
    (e : RelationSizeEntry) (hfind : lookup_entry dbid relid m = some e) :
    (e.quota = -1 → CheckQuota dbid relid (some m) = true) ∧
    (0 ≤ e.quota →
      (CheckQuota dbid relid (some m) = true ↔ e.totalsize ≤ e.quota) ∧
      (CheckQuota dbid relid (some m) = false ↔ e.totalsize > e.quota)) := by
  simp only [CheckQuota, CheckQuotaS, hfind]
  constructor
  · intro hq
    rw [if_neg]
    omega
  · intro hq
    by_cases hc : e.quota ≥ 0 ∧ e.totalsize > e.quota
    · rw [if_pos hc]
      constructor
      · constructor <;> intro h <;> first | omega | simp at h
      · constructor <;> intro h
        · omega
        · rfl
    · rw [if_neg hc]
      constructor
      · constructor <;> intro h
        · omega
        · rfl
      · constructor <;> intro h <;> first | omega | simp at h

/-- Witness for C1 at the boundary: a singleton store with
`totalsize = quota = 7` is allowed. -/
theorem C1_check_predicate_witness :
    CheckQuota 1 5 (some [⟨⟨5, 1⟩, 7, 7⟩]) = true :=
  (((C1_check_predicate 1 5 [⟨⟨5, 1⟩, 7, 7⟩] ⟨⟨5, 1⟩, 7, 7⟩
      (lookup_entry_singleton 1 5 7 7)).2 (by decide)).1).2 (by decide)

/-- C3: `CheckQuota` returns true both when the shared map was never attached
(NULL pointer) and when no entry exists for (relid, current database). -/
theorem C3_missing_allows (dbid relid : Oid) (m : RelTotalsMap)
    (habsent : lookup_entry dbid relid m = none) :
    CheckQuota dbid relid none = true ∧ CheckQuota dbid relid (some m) = true := by
  constructor
  · rfl
  · simp [CheckQuota, CheckQuotaS, habsent]

/-- Witness for C3: uninitialized store, and a store holding only an entry for
a different relation. -/
theorem C3_missing_allows_witness :
    CheckQuota 1 5 none = true ∧ CheckQuota 1 5 (some [⟨⟨6, 1⟩, 100, 0⟩]) = true :=
  C3_missing_allows 1 5 [⟨⟨6, 1⟩, 100, 0⟩] (by decide)

/-- C9: `CheckQuota` treats every strictly negative stored quota as "no
limit" (it allows for every `totalsize`), while `get_quota_status` reports
NULL only for the exact value -1, so a quota such as -2 allows every write yet
is displayed as a configured numeric quota. -/
theorem C9_negative_quota_disagreement (dbid relid : Oid) (q t : Int)
    (hq : q < 0) :
    CheckQuota dbid relid (some [⟨⟨relid, dbid⟩, t, q⟩]) = true ∧
    (q ≠ -1 →
      get_quota_status dbid (some [⟨⟨relid, dbid⟩, t, q⟩]) =
        [{ relid := relid, space_used := t, quota := some q }]) := by
  constructor
  · simp only [CheckQuota, CheckQuotaS, lookup_entry_singleton]
    rw [if_neg]
    omega
  · intro hne
    simp [get_quota_status, get_quota_statusS, hne]

/-- Witness for C9 at quota -2: every write is allowed (shown at
`totalsize = 1000000`) while the status row shows -2 as the quota. -/
theorem C9_negative_quota_disagreement_witness :
    CheckQuota 1 5 (some [⟨⟨5, 1⟩, 1000000, -2⟩]) = true ∧
    get_quota_status 1 (some [⟨⟨5, 1⟩, 1000000, -2⟩]) =
      [{ relid := 5, space_used := 1000000, quota := some (-2) }] :=
  ⟨(C9_negative_quota_disagreement 1 5 (-2) 1000000 (by decide)).1,
   (C9_negative_quota_disagreement 1 5 (-2) 1000000 (by decide)).2 (by decide)⟩

/-- C10: `CheckQuota` and `get_quota_status` leave the shared map exactly as
it was: the state after either call equals the state before, so no entry is
created, removed, or modified. -/
theorem C10_readers_leave_store_unchanged (dbid relid : Oid) (st : FsState) :
    (CheckQuotaS dbid relid st).2 = st ∧ (get_quota_statusS dbid st).2 = st := by
  constructor
  · cases st with
    | none => rfl
    | some m =>
      simp only [CheckQuotaS]
      split
      · split <;> rfl
      · rfl
  · cases st <;> rfl

/-- Witness for C10 on a concrete populated store. -/
theorem C10_readers_leave_store_unchanged_witness :
    (CheckQuotaS 1 5 (some [⟨⟨5, 1⟩, 9, 4⟩])).2 = some [⟨⟨5, 1⟩, 9, 4⟩] ∧
    (get_quota_statusS 1 (some [⟨⟨5, 1⟩, 9, 4⟩])).2 = some [⟨⟨5, 1⟩, 9, 4⟩] :=
  C10_readers_leave_store_unchanged 1 5 (some [⟨⟨5, 1⟩, 9, 4⟩])

/-- C2: when the shared map already holds `MAX_DB_ROLE_ENTRIES` entries and
the key is new, `UpdateQuotaRefreshRelationSize` raises "out of shared
memory", the map after the call is exactly the map before it, and every
lookup still answers as before. -/
theorem C2_capacity_exhausted (dbid relid : Oid) (q t : Int) (m : RelTotalsMap)
    (hfull : m.length = MAX_DB_ROLE_ENTRIES)
    (hnew : lookup_entry dbid relid m = none) :
    (UpdateQuotaRefreshRelationSize dbid relid q t m).1 = some "out of shared memory" ∧
    (UpdateQuotaRefreshRelationSize dbid relid q t m).2 = m ∧
    ∀ d r : Oid, lookup_entry d r (UpdateQuotaRefreshRelationSize dbid relid q t m).2 =
      lookup_entry d r m := by
  have h2 : UpdateQuotaRefreshRelationSize dbid relid q t m =
      (some "out of shared memory", m) := by
    simp [UpdateQuotaRefreshRelationSize, hnew, hfull]
  refine ⟨by rw [h2], by rw [h2], fun d r => by rw [h2]⟩

/-- Concrete shared map holding exactly `MAX_DB_ROLE_ENTRIES` entries, with
relation OIDs 1 .. 1024 in database 1. -/
def fullMap : RelTotalsMap :=
  (List.range MAX_DB_ROLE_ENTRIES).map fun i => ⟨⟨i + 1, 1⟩, 0, -1⟩

/-- Witness for C2: updating a 1025th distinct key on the full map fails and
changes nothing. -/
theorem C2_capacity_exhausted_witness :
    (UpdateQuotaRefreshRelationSize 1 2000 5 5 fullMap).1 = some "out of shared memory" ∧
    (UpdateQuotaRefreshRelationSize 1 2000 5 5 fullMap).2 = fullMap :=
  have h := C2_capacity_exhausted 1 2000 5 5 fullMap
    (by simp [fullMap, MAX_DB_ROLE_ENTRIES])
    (by
      rw [lookup_entry, List.find?_eq_none]
      intro e he
      simp only [fullMap, List.mem_map, List.mem_range] at he
      obtain ⟨i, hi, rfl⟩ := he
      simp only [MAX_DB_ROLE_ENTRIES] at hi
      simp
      omega)
  ⟨h.1, h.2.1⟩

/-- Auxiliary: `init_fs_model` keeps an entry of another database. -/
theorem init_fs_model_cons_keep (MyDatabaseId : Oid) (a : RelationSizeEntry)
    (l : RelTotalsMap) (ha : a.key.dbid ≠ MyDatabaseId) :
    init_fs_model MyDatabaseId (a :: l) = a :: init_fs_model MyDatabaseId l := by
  simp [init_fs_model, List.filter_cons, ha]

/-- Auxiliary: `init_fs_model` drops an entry of the current database. -/
theorem init_fs_model_cons_drop (MyDatabaseId : Oid) (a : RelationSizeEntry)
    (l : RelTotalsMap) (ha : a.key.dbid = MyDatabaseId) :
    init_fs_model MyDatabaseId (a :: l) = init_fs_model MyDatabaseId l := by
  simp [init_fs_model, List.filter_cons, ha]

/-- Auxiliary: the entries of a database other than the one being reset are
exactly the same before and after `init_fs_model`. -/
theorem filter_init_fs_model (MyDatabaseId scope2 : Oid)
    (hs : scope2 ≠ MyDatabaseId) (m : RelTotalsMap) :
    (init_fs_model MyDatabaseId m).filter (fun e => e.key.dbid = scope2) =
      m.filter (fun e => e.key.dbid = scope2) := by
  have hs2 : MyDatabaseId ≠ scope2 := Ne.symm hs
  induction m with
  | nil => rfl
  | cons a l ih =>
    by_cases ha : a.key.dbid = MyDatabaseId
    · rw [init_fs_model_cons_drop MyDatabaseId a l ha, ih, List.filter_cons,
        if_neg (by simp [ha, hs2])]
    · rw [init_fs_model_cons_keep MyDatabaseId a l ha, List.filter_cons,
        List.filter_cons, ih]

/-- C6: `init_fs_model` (the `Reset(scope)` operation, scope = database OID)
removes every entry of the current database and no other: afterwards no entry
of that database remains and `get_quota_status` for it is empty, the entries
of every other database are exactly as before, and when no entry of the
database exists the map is returned unchanged. -/
theorem C6_reset_scope (MyDatabaseId : Oid) (m : RelTotalsMap) :
    (∀ e ∈ init_fs_model MyDatabaseId m, e.key.dbid ≠ MyDatabaseId) ∧
    get_quota_status MyDatabaseId (some (init_fs_model MyDatabaseId m)) = [] ∧
    (∀ scope2, scope2 ≠ MyDatabaseId →
      (init_fs_model MyDatabaseId m).filter (fun e => e.key.dbid = scope2) =
        m.filter (fun e => e.key.dbid = scope2)) ∧
    ((∀ e ∈ m, e.key.dbid ≠ MyDatabaseId) → init_fs_model MyDatabaseId m = m) := by
  refine ⟨?_, ?_, ?_, ?_⟩
  · intro e he
    exact of_decide_eq_true (List.mem_filter.mp he).2
  · rw [get_quota_status, get_quota_statusS]
    simp only [List.filterMap_eq_nil_iff]
    intro e he
    have hne : e.key.dbid ≠ MyDatabaseId := of_decide_eq_true (List.mem_filter.mp he).2
    simp [hne]
  · exact fun scope2 hs => filter_init_fs_model MyDatabaseId scope2 hs m
  · intro hall
    rw [init_fs_model, List.filter_eq_self]
    intro e he
    exact decide_eq_true (hall e he)

/-- Witness for C6: resetting database 1 empties its status view, leaves the
database-2 entry in place, and is a no-op on a map holding only database-2
entries. -/
theorem C6_reset_scope_witness :
    get_quota_status 1 (some (init_fs_model 1 [⟨⟨5, 1⟩, 3, 4⟩, ⟨⟨5, 2⟩, 3, 4⟩])) = [] ∧
    (init_fs_model 1 [⟨⟨5, 1⟩, 3, 4⟩, ⟨⟨5, 2⟩, 3, 4⟩]).filter
      (fun e => e.key.dbid = 2) = [⟨⟨5, 2⟩, 3, 4⟩] ∧
    init_fs_model 1 [⟨⟨5, 2⟩, 3, 4⟩] = [⟨⟨5, 2⟩, 3, 4⟩] := by
  refine ⟨(C6_reset_scope 1 [⟨⟨5, 1⟩, 3, 4⟩, ⟨⟨5, 2⟩, 3, 4⟩]).2.1, ?_, ?_⟩
  · rw [(C6_reset_scope 1 [⟨⟨5, 1⟩, 3, 4⟩, ⟨⟨5, 2⟩, 3, 4⟩]).2.2.1 2 (by decide)]
    decide
  · exact (C6_reset_scope 1 [⟨⟨5, 2⟩, 3, 4⟩]).2.2.2 (by decide)

/-- Auxiliary: rewriting the fields of the entry for a key present in the map
makes a lookup of that key return the rewritten entry. -/
theorem lookup_entry_map_overwrite (dbid relid : Oid) (q t : Int)
    (m : RelTotalsMap) (e0 : RelationSizeEntry)
    (h : lookup_entry dbid relid m = some e0) :
    lookup_entry dbid relid (m.map fun e =>
      if e.key = (⟨relid, dbid⟩ : RelationSizeEntryKey) then
        { e with quota := q, totalsize := t } else e) =
      some ⟨⟨relid, dbid⟩, t, q⟩ := by
  induction m with
  | nil => simp [lookup_entry] at h
  | cons a l ih =>
    by_cases ha : a.key = (⟨relid, dbid⟩ : RelationSizeEntryKey)
    · simp only [lookup_entry, List.map_cons, List.find?_cons] at h ⊢
      rw [if_pos ha]
      simp [ha]
    · simp only [lookup_entry, List.map_cons, List.find?_cons] at h ⊢
      rw [if_neg ha]
      simp only [ha, decide_False, cond_false] at h ⊢
      exact ih h

/-- Auxiliary: appending a fresh entry for a key absent from the map makes a
lookup of that key return the fresh entry. -/
theorem lookup_entry_append_fresh (dbid relid : Oid) (q t : Int)
    (m : RelTotalsMap) (h : lookup_entry dbid relid m = none) :
    lookup_entry dbid relid
      (m ++ [{ key := ⟨relid, dbid⟩, totalsize := t, quota := q }]) =
      some ⟨⟨relid, dbid⟩, t, q⟩ := by
  induction m with
  | nil => simp [lookup_entry]
  | cons a l ih =>
    simp only [lookup_entry, List.find?_cons, List.cons_append] at h ⊢
    by_cases ha : a.key = (⟨relid, dbid⟩ : RelationSizeEntryKey)
    · simp [ha] at h
    · simp only [ha, decide_False, cond_false] at h ⊢
      exact ih h

/-- C7: whenever `UpdateQuotaRefreshRelationSize` returns without an error
(in particular both when the key already existed and when it was freshly
created), an immediate lookup of the same (relid, database) key on the
resulting map yields exactly the just-written totalsize and quota. -/
theorem C7_update_then_lookup (dbid relid : Oid) (q t : Int) (m : RelTotalsMap)
    (hok : (UpdateQuotaRefreshRelationSize dbid relid q t m).1 = none) :
    lookup_entry dbid relid (UpdateQuotaRefreshRelationSize dbid relid q t m).2 =
      some ⟨⟨relid, dbid⟩, t, q⟩ := by
  by_cases hfound : (lookup_entry dbid relid m).isSome
  · obtain ⟨e0, he0⟩ := Option.isSome_iff_exists.mp hfound
    have h2 : (UpdateQuotaRefreshRelationSize dbid relid q t m).2 =
        m.map fun e =>
          if e.key = (⟨relid, dbid⟩ : RelationSizeEntryKey) then
            { e with quota := q, totalsize := t } else e := by
      simp [UpdateQuotaRefreshRelationSize, he0]
    rw [h2]
    exact lookup_entry_map_overwrite dbid relid q t m e0 he0
  · have hnone : lookup_entry dbid relid m = none :=
      Option.not_isSome_iff_eq_none.mp hfound
    by_cases hlen : m.length < MAX_DB_ROLE_ENTRIES
    · have h2 : (UpdateQuotaRefreshRelationSize dbid relid q t m).2 =
          m ++ [{ key := ⟨relid, dbid⟩, totalsize := t, quota := q }] := by
        simp [UpdateQuotaRefreshRelationSize, hnone, hlen]
      rw [h2]
      exact lookup_entry_append_fresh dbid relid q t m hnone
    · exfalso
      simp [UpdateQuotaRefreshRelationSize, hnone, hlen] at hok

/-- Witness for C7: create on an empty map, then overwrite, looking the key up
after each successful update. -/
theorem C7_update_then_lookup_witness :
    lookup_entry 1 5 (UpdateQuotaRefreshRelationSize 1 5 9 8 []).2 =
      some ⟨⟨5, 1⟩, 8, 9⟩ ∧
    lookup_entry 1 5
      (UpdateQuotaRefreshRelationSize 1 5 2 3 [⟨⟨5, 1⟩, 8, 9⟩]).2 =
      some ⟨⟨5, 1⟩, 3, 2⟩ :=
  ⟨C7_update_then_lookup 1 5 9 8 [] (by decide),
   C7_update_then_lookup 1 5 2 3 [⟨⟨5, 1⟩, 8, 9⟩] (by decide)⟩

/-- C8: `get_quota_status` yields a row for every entry of the current
database and only for entries of the current database; in each row the quota
column is the stored numeric quota unless the stored quota is the sentinel
-1, in which case the column is NULL. -/
theorem C8_status_rows (MyDatabaseId : Oid) (m : RelTotalsMap) :
    (∀ e ∈ m, e.key.dbid = MyDatabaseId →
      ({ relid := e.key.relid, space_used := e.totalsize,
         quota := if e.quota ≠ -1 then some e.quota else none } : QuotaStatusRow) ∈
        get_quota_status MyDatabaseId (some m)) ∧
    (∀ r ∈ get_quota_status MyDatabaseId (some m), ∃ e ∈ m,
      e.key.dbid = MyDatabaseId ∧ r.relid = e.key.relid ∧
      r.space_used = e.totalsize ∧
      r.quota = if e.quota ≠ -1 then some e.quota else none) := by
  constructor
  · intro e he hdb
    rw [get_quota_status, get_quota_statusS]
    simp only [List.mem_filterMap]
    refine ⟨e, he, ?_⟩
    rw [if_neg (by simp [hdb])]
  · intro r hr
    rw [get_quota_status, get_quota_statusS] at hr
    simp only [List.mem_filterMap] at hr
    obtain ⟨e, he, hfe⟩ := hr
    by_cases hdb : e.key.dbid = MyDatabaseId
    · rw [if_neg (by simp [hdb])] at hfe
      refine ⟨e, he, hdb, ?_⟩
      cases hfe
      simp
    · rw [if_pos (by simp [hdb])] at hfe
      exact absurd hfe (by simp)

/-- Witness for C8: a two-database store; the database-1 row appears with its
numeric quota, the sentinel row appears with a NULL quota, and the only rows
are those of database 1. -/
theorem C8_status_rows_witness :
    ({ relid := 5, space_used := 3, quota := some 4 } : QuotaStatusRow) ∈
      get_quota_status 1 (some [⟨⟨5, 1⟩, 3, 4⟩, ⟨⟨6, 2⟩, 9, 9⟩, ⟨⟨7, 1⟩, 2, -1⟩]) ∧
    ({ relid := 7, space_used := 2, quota := none } : QuotaStatusRow) ∈
      get_quota_status 1 (some [⟨⟨5, 1⟩, 3, 4⟩, ⟨⟨6, 2⟩, 9, 9⟩, ⟨⟨7, 1⟩, 2, -1⟩]) := by
  constructor
  · have h := (C8_status_rows 1 [⟨⟨5, 1⟩, 3, 4⟩, ⟨⟨6, 2⟩, 9, 9⟩, ⟨⟨7, 1⟩, 2, -1⟩]).1
      ⟨⟨5, 1⟩, 3, 4⟩ (by simp) (by decide)
    simpa using h
  · have h := (C8_status_rows 1 [⟨⟨5, 1⟩, 3, 4⟩, ⟨⟨6, 2⟩, 9, 9⟩, ⟨⟨7, 1⟩, 2, -1⟩]).1
      ⟨⟨7, 1⟩, 2, -1⟩ (by simp) (by decide)
    simpa using h

/-- C4: in the `SmgrExtend` hook, an extension whose relNode the syscache
cannot resolve proceeds unconditionally, whatever the quota store holds; an
extension whose owner resolves to a valid OID raises `ERRCODE_DISK_FULL`
exactly when `CheckQuota` denies for that owner, and proceeds exactly when it
allows. -/
theorem C4_smgr_extend_fail_open (syscache_relowner : Oid → Option Oid)
    (MyDatabaseId relNode : Oid) (st : FsState) :
    (syscache_relowner relNode = none →
      quota_check_SmgrExtend syscache_relowner MyDatabaseId st relNode = .proceed) ∧
    (∀ owner, syscache_relowner relNode = some owner → owner ≠ InvalidOid →
      (quota_check_SmgrExtend syscache_relowner MyDatabaseId st relNode =
          .diskFullError ↔ CheckQuota MyDatabaseId owner st = false) ∧
      (quota_check_SmgrExtend syscache_relowner MyDatabaseId st relNode =
          .proceed ↔ CheckQuota MyDatabaseId owner st = true)) := by
  constructor
  · intro h
    simp [quota_check_SmgrExtend, get_rel_owner, h]
  · intro owner h hval
    simp only [quota_check_SmgrExtend, get_rel_owner, h]
    rw [if_neg hval]
    cases hc : CheckQuota MyDatabaseId owner st <;> simp [hc]

/-- Witness for C4: with an over-quota entry for OID 7 in the store, an
unresolvable relNode still proceeds, while a relNode owned by OID 7 raises
the disk-full error. -/
theorem C4_smgr_extend_fail_open_witness :
    quota_check_SmgrExtend (fun _ => none) 1 (some [⟨⟨7, 1⟩, 100, 10⟩]) 7 =
      .proceed ∧
    quota_check_SmgrExtend (fun _ => some 7) 1 (some [⟨⟨7, 1⟩, 100, 10⟩]) 7 =
      .diskFullError :=
  ⟨(C4_smgr_extend_fail_open (fun _ => none) 1 7 (some [⟨⟨7, 1⟩, 100, 10⟩])).1 rfl,
   ((C4_smgr_extend_fail_open (fun _ => some 7) 1 7
      (some [⟨⟨7, 1⟩, 100, 10⟩])).2 7 rfl (by decide)).1.mpr (by decide)⟩

/-- C5: the `ExecCheckRTPerms` hook returns "allowed" exactly when every
range-table entry that is a relation and carries the insert permission bit
passes `CheckQuota` (entries that are not relations or are not insert targets
never influence the outcome), and in error-reporting mode the only outcomes
are "allowed" and the disk-full error that aborts the whole statement. -/
theorem C5_rtperms_gate (MyDatabaseId : Oid) (st : FsState) (v : Bool)
    (rangeTable : List RangeTblEntry) :
    (quota_check_ExecCheckRTPerms MyDatabaseId st v rangeTable = .allowed ↔
      ∀ rte ∈ rangeTable, rte.rtekind = RTEKind.RTE_RELATION →
        rte.requiredPerms &&& ACL_INSERT ≠ 0 →
        CheckQuota MyDatabaseId rte.relid st = true) ∧
    (quota_check_ExecCheckRTPerms MyDatabaseId st true rangeTable = .allowed ∨
      quota_check_ExecCheckRTPerms MyDatabaseId st true rangeTable = .diskFullError) := by
  constructor
  · induction rangeTable with
    | nil => simp [quota_check_ExecCheckRTPerms]
    | cons rte rest ih =>
      simp only [quota_check_ExecCheckRTPerms, List.forall_mem_cons]
      by_cases hk : rte.rtekind = RTEKind.RTE_RELATION
      · by_cases hp : rte.requiredPerms &&& ACL_INSERT = 0
        · simp [hk, hp, ih]
        · cases hc : CheckQuota MyDatabaseId rte.relid st
          · cases v <;> simp [hk, hp, hc]
          · simp [hk, hp, hc, ih]
      · simp [hk, ih]
  · induction rangeTable with
    | nil => exact Or.inl rfl
    | cons rte rest ih =>
      simp only [quota_check_ExecCheckRTPerms]
      by_cases hk : rte.rtekind = RTEKind.RTE_RELATION
      · by_cases hp : rte.requiredPerms &&& ACL_INSERT = 0
        · simpa [hk, hp] using ih
        · cases hc : CheckQuota MyDatabaseId rte.relid st
          · simp [hk, hp, hc]
          · simpa [hk, hp, hc] using ih
      · simpa [hk] using ih

/-- Witness for C5: a range table holding a subquery entry, a read-only
relation, and an over-quota insert-target relation is denied with the
disk-full error; dropping the over-quota target allows the statement. -/
theorem C5_rtperms_gate_witness :
    quota_check_ExecCheckRTPerms 1 (some [⟨⟨5, 1⟩, 100, 10⟩]) true
      [⟨RTEKind.RTE_SUBQUERY, 1, 5⟩, ⟨RTEKind.RTE_RELATION, 2, 5⟩,
        ⟨RTEKind.RTE_RELATION, 1, 5⟩] = .diskFullError ∧
    quota_check_ExecCheckRTPerms 1 (some [⟨⟨5, 1⟩, 100, 10⟩]) true
      [⟨RTEKind.RTE_SUBQUERY, 1, 5⟩, ⟨RTEKind.RTE_RELATION, 2, 5⟩] = .allowed := by
  constructor
  · have h := (C5_rtperms_gate 1 (some [⟨⟨5, 1⟩, 100, 10⟩]) true
      [⟨RTEKind.RTE_SUBQUERY, 1, 5⟩, ⟨RTEKind.RTE_RELATION, 2, 5⟩,
        ⟨RTEKind.RTE_RELATION, 1, 5⟩]).2
    rcases h with h | h
    · exfalso
      have h2 := (C5_rtperms_gate 1 (some [⟨⟨5, 1⟩, 100, 10⟩]) true
        [⟨RTEKind.RTE_SUBQUERY, 1, 5⟩, ⟨RTEKind.RTE_RELATION, 2, 5⟩,
          ⟨RTEKind.RTE_RELATION, 1, 5⟩]).1.mp h
        ⟨RTEKind.RTE_RELATION, 1, 5⟩ (by simp) rfl (by decide)
      exact absurd h2 (by decide)
    · exact h
  · exact (C5_rtperms_gate 1 (some [⟨⟨5, 1⟩, 100, 10⟩]) true
      [⟨RTEKind.RTE_SUBQUERY, 1, 5⟩, ⟨RTEKind.RTE_RELATION, 2, 5⟩]).1.mpr
      (by decide)

end PgQuota
